import Mathlib

/-!
Shallow embedding of the load-test user definition in locustfile.py.

The file declares one user class, ApiUser, with a fixed host, a wait-time
policy between 1 and 5 seconds, and one task, get_endpoint, which issues an
HTTP GET to the relative path /infrastructure-info through the session HTTP
client and ignores the result.  The external engine is modelled explicitly:
the network is an environment function from requests to network results, the
uniform random source is a stream of samples in [0, 1), and the engine loop
threads the session state through successive wait/task cycles.
-/

/-- An HTTP request as assembled by the session HTTP client: method, absolute
URL, optional body, query parameters, and caller-supplied headers beyond the
framework defaults. -/
structure HttpRequest where
  method : String
  url : String
  body : Option String
  queryParams : List (String × String)
  extraHeaders : List (String × String)
  deriving DecidableEq, Repr

/-- An HTTP response delivered by the network, with any status code. -/
structure HttpResponse where
  statusCode : Nat
  respBody : String
  deriving DecidableEq, Repr

/-- What the network does with one request: deliver some HTTP response
(any status code) or fail at the network level (connection refused,
timeout, ...). -/
inductive NetResult where
  | response (resp : HttpResponse)
  | netError (msg : String)
  deriving DecidableEq, Repr

/-- What the engine records for one task invocation: the task body returned
normally, or a network-level failure propagated out of the HTTP client and
was recorded by the engine, unmodified. -/
inductive TaskOutcome where
  | completed
  | frameworkFailure (msg : String)
  deriving DecidableEq, Repr

/-- The per-session configuration attributes of the user class: the target
host and the two wait-time bounds set by wait_time = between 1 5. -/
structure SessionState where
  host : String
  wait_time_lo : ℚ
  wait_time_hi : ℚ
  deriving DecidableEq, Repr

/-- locust.between lo hi applied to one fresh uniform sample r in [0, 1):
the sampled delay is lo + r * (hi - lo). -/
def between (lo hi : ℚ) (r : ℚ) : ℚ := lo + r * (hi - lo)

/-- The host class attribute of ApiUser. -/
def ApiUser.host : String :=
  "https://xen-global-system-895330382127.europe-west1.run.app"

/-- The wait_time class attribute of ApiUser: between 1 5, applied to one
fresh uniform sample. -/
def ApiUser.wait_time : ℚ → ℚ := between 1 5

/-- The session state the engine constructs for a user of class ApiUser:
the configured host together with the wait bounds 1 and 5. -/
def ApiUser.initState (h : String) : SessionState :=
  { host := h, wait_time_lo := 1, wait_time_hi := 5 }

/-- A session of ApiUser with its hardcoded host. -/
def defaultSession : SessionState := ApiUser.initState ApiUser.host

/-- The wait-time policy of a session: between applied to its bounds and to
one fresh uniform sample. -/
def SessionState.wait_time (s : SessionState) (r : ℚ) : ℚ :=
  between s.wait_time_lo s.wait_time_hi r

/-- self.client.get path: the request a plain get call issues, with no body,
no query parameters and no extra headers; the relative path is resolved
against the session host. -/
def clientGet (s : SessionState) (path : String) : HttpRequest :=
  { method := "GET", url := s.host ++ path, body := none,
    queryParams := [], extraHeaders := [] }

/-- The observable result of one task invocation: the requests it issued, the
recorded outcome, the session state afterwards, the files it wrote, and the
value the task body returned. -/
structure TaskRun where
  requests : List HttpRequest
  outcome : TaskOutcome
  finalState : SessionState
  fileWrites : List String
  retVal : Unit
  deriving DecidableEq, Repr

/-- The task get_endpoint: it issues exactly one GET to /infrastructure-info
through the session client and does not bind the call result; a network
failure propagates to the engine unmodified, and in either case the task
neither touches the session state nor writes files nor returns data. -/
def get_endpoint (s : SessionState) (net : HttpRequest → NetResult) :
    TaskRun :=
  let req := clientGet s "/infrastructure-info"
  match net req with
  | NetResult.response _ =>
      { requests := [req], outcome := TaskOutcome.completed,
        finalState := s, fileWrites := [], retVal := () }
  | NetResult.netError e =>
      { requests := [req], outcome := TaskOutcome.frameworkFailure e,
        finalState := s, fileWrites := [], retVal := () }

/-- A registered task: its name and its body. -/
structure TaskDef where
  name : String
  run : SessionState → (HttpRequest → NetResult) → TaskRun

/-- The task list the task decorator registers on ApiUser: exactly one
entry, get_endpoint. -/
def ApiUser.tasks : List TaskDef :=
  [{ name := "get_endpoint", run := get_endpoint }]

/-- One wait/task cycle of the engine loop: run the task against the current
network environment, then wait for the duration the wait-time policy yields
on the fresh sample r. -/
def runCycle (s : SessionState) (net : HttpRequest → NetResult) (r : ℚ) :
    TaskRun × ℚ :=
  let tr := get_endpoint s net
  (tr, SessionState.wait_time tr.finalState r)

/-- The engine-driven session loop: n cycles, cycle i using the network
environment net i and the fresh uniform sample rs i; the loop continues to
the next cycle whatever the outcome of the previous task was. -/
def runSession (s : SessionState) (net : Nat → HttpRequest → NetResult)
    (rs : Nat → ℚ) : Nat → List (TaskRun × ℚ)
  | 0 => []
  | Nat.succ n =>
      let c := runCycle s (net 0) (rs 0)
      c :: runSession c.1.finalState (fun i => net (i + 1))
        (fun i => rs (i + 1)) n

/-- A network environment answering every request of every cycle with the
same fixed response, used to instantiate the theorems below. -/
def okNet : Nat → HttpRequest → NetResult :=
  fun _ _ => NetResult.response { statusCode := 200, respBody := "" }

/-- A random source yielding the sample one half at every cycle, used to
instantiate the theorems below. -/
def halfSamples : Nat → ℚ := fun _ => 1 / 2

theorem get_endpoint_finalState (s : SessionState)
    (net : HttpRequest → NetResult) : (get_endpoint s net).finalState = s := by
  cases h : net (clientGet s "/infrastructure-info") <;>
    simp [get_endpoint, h]

theorem get_endpoint_requests (s : SessionState)
    (net : HttpRequest → NetResult) :
    (get_endpoint s net).requests = [clientGet s "/infrastructure-info"] := by
  cases h : net (clientGet s "/infrastructure-info") <;>
    simp [get_endpoint, h]

theorem runSession_spec (s : SessionState)
    (net : Nat → HttpRequest → NetResult) (rs : Nat → ℚ) (n : Nat) :
    runSession s net rs n =
      (List.range n).map
        (fun i => (get_endpoint s (net i), SessionState.wait_time s (rs i))) := by
  induction n generalizing net rs with
  | zero => rfl
  | succ n ih =>
      rw [List.range_succ_eq_map]
      show runSession s net rs (n + 1) = _
      unfold runSession
      simp only [runCycle, get_endpoint_finalState, List.map_cons,
        List.map_map]
      rw [ih]
      rfl

/-- Claim C1: for every invocation of the task get_endpoint, the request it
issues is a GET whose target equals exactly the configured host concatenated
with /infrastructure-info, and neither the host nor the path varies between
invocations. -/
theorem get_endpoint_target_exact (s : SessionState)
    (net1 net2 : HttpRequest → NetResult) :
    (get_endpoint s net1).requests.map HttpRequest.url
        = [s.host ++ "/infrastructure-info"] ∧
    (get_endpoint s net1).requests.map HttpRequest.method = ["GET"] ∧
    (get_endpoint s net1).requests = (get_endpoint s net2).requests := by
  refine ⟨?_, ?_, ?_⟩ <;>
    simp [get_endpoint_requests, clientGet]

/-- Claim C2: every inter-task wait of ApiUser, drawn from one fresh uniform
sample r in [0, 1), satisfies 1 ≤ d ≤ 5; it is the affine image 1 + r * (5 - 1)
of the uniform sample, hence uniform on the interval; and in the session loop
the wait of cycle i depends only on the fresh sample rs i of that cycle. -/
theorem wait_time_uniform_bounds (r : ℚ) (h0 : 0 ≤ r) (h1 : r < 1) :
    1 ≤ ApiUser.wait_time r ∧ ApiUser.wait_time r ≤ 5 ∧
    ApiUser.wait_time r = 1 + r * (5 - 1) ∧
    ∀ (net : Nat → HttpRequest → NetResult) (rs : Nat → ℚ) (n i : Nat),
      ((runSession defaultSession net rs n).map Prod.snd)[i]? =
        if i < n then some (ApiUser.wait_time (rs i)) else none := by
  refine ⟨?_, ?_, ?_, ?_⟩
  · simp only [ApiUser.wait_time, between]
    nlinarith
  · simp only [ApiUser.wait_time, between]
    nlinarith
  · rfl
  · intro net rs n i
    rw [runSession_spec]
    simp only [List.map_map]
    rcases Nat.lt_or_ge i n with h | h
    · rw [List.getElem?_map, List.getElem?_range h]
      simp only [if_pos h, Option.map_some]
      rfl
    · rw [if_neg (Nat.not_lt.mpr h), List.getElem?_eq_none]
      simpa using h

/-- Claim C2 witness: the theorem instantiated at the concrete sample 1/2. -/
theorem wait_time_uniform_bounds_witness :
    (0 : ℚ) ≤ 1 / 2 ∧ (1 : ℚ) / 2 < 1 ∧
    (1 ≤ ApiUser.wait_time (1 / 2) ∧ ApiUser.wait_time (1 / 2) ≤ 5 ∧
      ApiUser.wait_time (1 / 2) = 1 + 1 / 2 * (5 - 1) ∧
      ∀ (net : Nat → HttpRequest → NetResult) (rs : Nat → ℚ) (n i : Nat),
        ((runSession defaultSession net rs n).map Prod.snd)[i]? =
          if i < n then some (ApiUser.wait_time (rs i)) else none) :=
  ⟨by norm_num, by norm_num,
    wait_time_uniform_bounds (1 / 2) (by norm_num) (by norm_num)⟩

/-- Claim C3: the configured host is the constant string of the source, so
the full target of every request of every cycle of a run is the constant GET
https://xen-global-system-895330382127.europe-west1.run.app/infrastructure-info. -/
theorem host_constant_endpoint :
    ApiUser.host = "https://xen-global-system-895330382127.europe-west1.run.app" ∧
    defaultSession.host
      = "https://xen-global-system-895330382127.europe-west1.run.app" ∧
    (∀ net : HttpRequest → NetResult,
      (get_endpoint defaultSession net).requests.map HttpRequest.url =
        ["https://xen-global-system-895330382127.europe-west1.run.app/infrastructure-info"]) ∧
    (∀ net : HttpRequest → NetResult,
      (get_endpoint defaultSession net).requests.map HttpRequest.method
        = ["GET"]) ∧
    ∀ (net : Nat → HttpRequest → NetResult) (rs : Nat → ℚ) (n : Nat),
      (runSession defaultSession net rs n).map (fun c => c.1.requests) =
        List.replicate n
          [{ method := "GET",
             url := "https://xen-global-system-895330382127.europe-west1.run.app/infrastructure-info",
             body := none, queryParams := [], extraHeaders := [] }] := by
  refine ⟨rfl, rfl, ?_, ?_, ?_⟩
  · intro net
    simp [get_endpoint_requests, clientGet]
    rfl
  · intro net
    simp [get_endpoint_requests, clientGet]
  · intro net rs n
    rw [runSession_spec]
    simp only [List.map_map]
    rw [List.eq_replicate_iff]
    constructor
    · simp
    · intro x hx
      simp only [List.mem_map, List.mem_range] at hx
      obtain ⟨i, _, hi⟩ := hx
      rw [← hi]
      simp [Function.comp, get_endpoint_requests, clientGet]
      rfl

/-- Claim C4: get_endpoint validates no status code, retries nothing and
recovers nothing locally: its outcome is completed for any HTTP response
whatever the status, a network-level failure is passed to the engine
unmodified, exactly one request is attempted either way, the session state is
unchanged, and the session loop still runs every one of its cycles whatever
the network does. -/
theorem get_endpoint_no_validation_no_retry (s : SessionState)
    (resp : HttpResponse) (e : String)
    (net : Nat → HttpRequest → NetResult) (rs : Nat → ℚ) (n : Nat) :
    (get_endpoint s (fun _ => NetResult.response resp)).outcome
        = TaskOutcome.completed ∧
    (get_endpoint s (fun _ => NetResult.netError e)).outcome
        = TaskOutcome.frameworkFailure e ∧
    (∀ m : HttpRequest → NetResult, (get_endpoint s m).requests.length = 1) ∧
    (∀ m : HttpRequest → NetResult, (get_endpoint s m).finalState = s) ∧
    (runSession s net rs n).length = n := by
  refine ⟨rfl, rfl, ?_, ?_, ?_⟩
  · intro m
    simp [get_endpoint_requests]
  · intro m
    exact get_endpoint_finalState s m
  · rw [runSession_spec]
    simp

/-- Claim C5: ApiUser registers exactly one task, named get_endpoint, and
every invocation of that task issues the same single GET request, with no
input-dependent variation in method, path or payload. -/
theorem single_registered_task (s : SessionState)
    (net1 net2 : HttpRequest → NetResult) :
    ApiUser.tasks.length = 1 ∧
    ApiUser.tasks.map TaskDef.name = ["get_endpoint"] ∧
    ApiUser.tasks.map (fun t => (t.run s net1).requests) =
      [[{ method := "GET", url := s.host ++ "/infrastructure-info",
          body := none, queryParams := [], extraHeaders := [] }]] ∧
    ApiUser.tasks.map (fun t => (t.run s net1).requests) =
      ApiUser.tasks.map (fun t => (t.run s net2).requests) := by
  refine ⟨rfl, rfl, ?_, ?_⟩ <;>
    simp [ApiUser.tasks, get_endpoint_requests, clientGet]

/-- Claim C6: an invocation of get_endpoint has network traffic as its only
effect: the session state afterwards is exactly the state before, so the
host and wait-time configuration attributes are unchanged, no file is
written, and along a whole run every cycle starts from that same state. -/
theorem get_endpoint_frame (s : SessionState)
    (net : HttpRequest → NetResult) :
    (get_endpoint s net).finalState = s ∧
    (get_endpoint s net).finalState.host = s.host ∧
    (get_endpoint s net).finalState.wait_time_lo = s.wait_time_lo ∧
    (get_endpoint s net).finalState.wait_time_hi = s.wait_time_hi ∧
    (get_endpoint s net).fileWrites = [] ∧
    ∀ (netf : Nat → HttpRequest → NetResult) (rs : Nat → ℚ) (n : Nat),
      (runSession s netf rs n).map (fun c => c.1.finalState) =
        List.replicate n s := by
  refine ⟨get_endpoint_finalState s net, ?_, ?_, ?_, ?_, ?_⟩
  · rw [get_endpoint_finalState]
  · rw [get_endpoint_finalState]
  · rw [get_endpoint_finalState]
  · cases h : net (clientGet s "/infrastructure-info") <;>
      simp [get_endpoint, h]
  · intro netf rs n
    rw [runSession_spec]
    simp only [List.map_map]
    rw [List.eq_replicate_iff]
    refine ⟨by simp, ?_⟩
    intro x hx
    simp only [List.mem_map, List.mem_range] at hx
    obtain ⟨i, _, hi⟩ := hx
    rw [← hi]
    simp [Function.comp, get_endpoint_finalState]

/-- Claim C7: the GET issued by get_endpoint carries no request body, no
query parameters, and no headers beyond the framework defaults. -/
theorem get_endpoint_plain_get (s : SessionState)
    (net : HttpRequest → NetResult) :
    (get_endpoint s net).requests.map HttpRequest.body = [none] ∧
    (get_endpoint s net).requests.map HttpRequest.queryParams = [[]] ∧
    (get_endpoint s net).requests.map HttpRequest.extraHeaders = [[]] := by
  refine ⟨?_, ?_, ?_⟩ <;>
    simp [get_endpoint_requests, clientGet]

theorem runSession_requests_replicate (s : SessionState)
    (net : Nat → HttpRequest → NetResult) (rs : Nat → ℚ) (n : Nat) :
    (runSession s net rs n).map (fun c => c.1.requests) =
      List.replicate n [clientGet s "/infrastructure-info"] := by
  rw [runSession_spec]
  simp only [List.map_map]
  rw [List.eq_replicate_iff]
  refine ⟨by simp, ?_⟩
  intro x hx
  simp only [List.mem_map, List.mem_range] at hx
  obtain ⟨i, _, hi⟩ := hx
  rw [← hi]
  simp [Function.comp, get_endpoint_requests]

/-- Claim C8: with host configured to https://example.test, one simulated
user run for one task cycle issues exactly one GET to
https://example.test/infrastructure-info, followed by one wait whose duration
lies in [1, 5] seconds before any subsequent task. -/
theorem one_user_one_cycle (net : Nat → HttpRequest → NetResult)
    (rs : Nat → ℚ) (h0 : 0 ≤ rs 0) (h1 : rs 0 < 1) :
    (runSession (ApiUser.initState "https://example.test") net rs 1).map
        (fun c => c.1.requests) =
      [[{ method := "GET", url := "https://example.test/infrastructure-info",
          body := none, queryParams := [], extraHeaders := [] }]] ∧
    (runSession (ApiUser.initState "https://example.test") net rs 1).map
        Prod.snd =
      [SessionState.wait_time (ApiUser.initState "https://example.test")
        (rs 0)] ∧
    1 ≤ SessionState.wait_time (ApiUser.initState "https://example.test")
        (rs 0) ∧
    SessionState.wait_time (ApiUser.initState "https://example.test") (rs 0)
        ≤ 5 := by
  refine ⟨?_, ?_, ?_, ?_⟩
  · rw [runSession_spec]
    rw [show List.range 1 = [0] from rfl]
    simp only [List.map_cons, List.map_nil, Function.comp_apply]
    rw [get_endpoint_requests]
    rfl
  · rw [runSession_spec]
    rw [show List.range 1 = [0] from rfl]
    simp only [List.map_cons, List.map_nil, Function.comp_apply]
  · simp only [SessionState.wait_time, ApiUser.initState, between]
    nlinarith
  · simp only [SessionState.wait_time, ApiUser.initState, between]
    nlinarith

/-- Claim C8 witness: the theorem instantiated at the constant network
environment okNet and the constant sample stream halfSamples. -/
theorem one_user_one_cycle_witness :
    (0 : ℚ) ≤ halfSamples 0 ∧ halfSamples 0 < 1 ∧
    ((runSession (ApiUser.initState "https://example.test") okNet
          halfSamples 1).map (fun c => c.1.requests) =
        [[{ method := "GET",
            url := "https://example.test/infrastructure-info",
            body := none, queryParams := [], extraHeaders := [] }]] ∧
      (runSession (ApiUser.initState "https://example.test") okNet
          halfSamples 1).map Prod.snd =
        [SessionState.wait_time (ApiUser.initState "https://example.test")
          (halfSamples 0)] ∧
      1 ≤ SessionState.wait_time (ApiUser.initState "https://example.test")
          (halfSamples 0) ∧
      SessionState.wait_time (ApiUser.initState "https://example.test")
          (halfSamples 0) ≤ 5) :=
  ⟨by norm_num [halfSamples], by norm_num [halfSamples],
    one_user_one_cycle okNet halfSamples (by norm_num [halfSamples])
      (by norm_num [halfSamples])⟩

/-- Claim C9: get_endpoint does not retain the HTTP response: its whole
observable result is the same whatever response the network delivers, its
return value is the unit value, and the state it leaves behind is the state
it started from, so no request or response data survives the invocation
inside this component. -/
theorem get_endpoint_response_not_retained (s : SessionState)
    (a b : HttpResponse) (m : HttpRequest → NetResult) :
    get_endpoint s (fun _ => NetResult.response a)
      = get_endpoint s (fun _ => NetResult.response b) ∧
    (get_endpoint s m).retVal = () ∧
    (get_endpoint s m).finalState = s := by
  refine ⟨rfl, rfl, get_endpoint_finalState s m⟩

/-- Claim C10: the request emitted by get_endpoint is deterministic and
response-independent: along any two runs, in the same session or in two
sessions sharing the configured host, every cycle emits the one fixed
request, whatever the network environments and samples were, so no earlier
response influences any later emitted request. -/
theorem emitted_request_deterministic (s1 s2 : SessionState)
    (net1 net2 : Nat → HttpRequest → NetResult) (rs1 rs2 : Nat → ℚ)
    (n1 n2 : Nat) (hhost : s1.host = s2.host) :
    (runSession s1 net1 rs1 n1).map (fun c => c.1.requests) =
      List.replicate n1 [clientGet s1 "/infrastructure-info"] ∧
    (runSession s2 net2 rs2 n2).map (fun c => c.1.requests) =
      List.replicate n2 [clientGet s2 "/infrastructure-info"] ∧
    clientGet s1 "/infrastructure-info"
      = clientGet s2 "/infrastructure-info" := by
  refine ⟨runSession_requests_replicate s1 net1 rs1 n1,
    runSession_requests_replicate s2 net2 rs2 n2, ?_⟩
  simp [clientGet, hhost]

/-- Claim C10 witness: the theorem instantiated at two default sessions, two
distinct network environments and sample streams, and two cycle counts. -/
theorem emitted_request_deterministic_witness :
    defaultSession.host = defaultSession.host ∧
    ((runSession defaultSession okNet halfSamples 2).map
        (fun c => c.1.requests) =
      List.replicate 2 [clientGet defaultSession "/infrastructure-info"] ∧
    (runSession defaultSession (fun _ _ => NetResult.netError "refused")
        (fun _ => 0) 3).map (fun c => c.1.requests) =
      List.replicate 3 [clientGet defaultSession "/infrastructure-info"] ∧
    clientGet defaultSession "/infrastructure-info"
      = clientGet defaultSession "/infrastructure-info") :=
  ⟨rfl, emitted_request_deterministic defaultSession defaultSession okNet
    (fun _ _ => NetResult.netError "refused") halfSamples (fun _ => 0) 2 3
    rfl⟩
